import Mathlib

/-!
Shallow embedding of the simulation engine `TechProgressGame` from
`src/app.py` (a turn-based "Technology vs. Complexity" game).

Python floats are modelled as rationals (ℚ), Python ints as ℤ (levels,
which are always nonnegative, as ℕ).  Mutation is modelled by explicit
state passing: each engine method becomes a function from `GameState`
(plus its arguments) to its result paired with the successor state.
The two random draws made by a crisis (the crisis category and, for an
institutional failure, the affected institution) are passed in as
explicit oracle arguments.
-/

namespace TechProgress

/-- Truncation toward zero, the semantics of Python `int(...)` on a real. -/
def pyint (q : ℚ) : ℤ := if 0 ≤ q then ⌊q⌋ else ⌈q⌉

/-- The four technology tracks of `self.technologies` in `__init__`. -/
inductive Tech
  | ai      -- "AI & Automation"
  | bio     -- "Biotechnology"
  | clean   -- "Clean Energy"
  | info    -- "Information Systems"
deriving DecidableEq, Fintype

/-- The four institution tracks of `self.institutions` in `__init__`. -/
inductive Inst
  | edu     -- "Education System"
  | reg     -- "Regulatory Framework"
  | sci     -- "Scientific Community"
  | safety  -- "Social Safety Net"
deriving DecidableEq, Fintype

/-- The four crisis categories of `crisis_events` in `trigger_crisis`. -/
inductive CrisisKind
  | backlash       -- "Public Backlash"
  | accident       -- "Technological Accident"
  | institutional  -- "Institutional Failure"
  | shortage       -- "Resource Shortage"
deriving DecidableEq, Fintype

/-- Per-track `complexity_factor` from `__init__`. -/
def complexityFactor : Tech → ℚ
  | .ai => 9/5       -- 1.8
  | .bio => 3/2      -- 1.5
  | .clean => 4/5    -- 0.8
  | .info => 13/10   -- 1.3

/-- Per-track `capacity_factor` from `__init__`. -/
def capacityFactor : Inst → ℚ
  | .edu => 9/5      -- 1.8
  | .reg => 3/2      -- 1.5
  | .sci => 17/10    -- 1.7
  | .safety => 7/5   -- 1.4

/-- Per-track base `cost` of an institution from `__init__`. -/
def instCost : Inst → ℤ
  | .edu => 15
  | .reg => 18
  | .sci => 20
  | .safety => 12

/-- Dictionary lookup `tech_name in self.technologies`. -/
def techOfName : String → Option Tech
  | "AI & Automation" => some .ai
  | "Biotechnology" => some .bio
  | "Clean Energy" => some .clean
  | "Information Systems" => some .info
  | _ => none

/-- Dictionary lookup `inst_name in self.institutions`. -/
def instOfName : String → Option Inst
  | "Education System" => some .edu
  | "Regulatory Framework" => some .reg
  | "Scientific Community" => some .sci
  | "Social Safety Net" => some .safety
  | _ => none

/-- The magnitude `research_bonus` of "AI & Automation" (0.1). -/
def research_bonus : ℚ := 1/10

/-- The magnitude `crisis_resistance` of "Biotechnology" (0.1). -/
def crisis_resistance_magnitude : ℚ := 1/10

/-- The magnitude `complexity_reduction` of "Clean Energy" (0.05). -/
def complexity_reduction : ℚ := 1/20

/-- The magnitude `capacity_bonus` of "Information Systems" (0.1). -/
def capacity_bonus : ℚ := 1/10

/-- The constant `self.complexity_growth_rate = 1.08` (never reassigned). -/
def complexity_growth_rate : ℚ := 27/25

/-- The constant `self.crisis_threshold = 0.2` (never reassigned). -/
def crisis_threshold : ℚ := 1/5

/-- The `self.complexity_components` breakdown stored by
`calculate_total_complexity`. -/
structure Breakdown where
  base : ℚ
  tech_direct : ℚ
  tech_interaction : ℚ
  total : ℚ
deriving DecidableEq

/-- The structured crisis event returned by `trigger_crisis`
(display-only `icon` omitted). -/
structure CrisisEvent where
  name : String
  description : String
  message : String
  severity : ℚ
  adjusted_severity : ℚ
deriving DecidableEq

/-- One entry of the `self.history` log (one index across its five lists). -/
structure HistEntry where
  turn : ℕ
  complexity : ℚ
  capacity : ℚ
  research_points : ℤ
  crisis_event : Option CrisisEvent
deriving DecidableEq

/-- The mutable state of a `TechProgressGame` instance.  Levels are the
`level` fields of the technology and institution dictionaries; the fixed
factors, costs and effect magnitudes live in the constant functions above
because the Python code never mutates them. -/
structure GameState where
  turn : ℕ
  research_points : ℤ
  complexity : ℚ
  techLevel : Tech → ℕ
  instLevel : Inst → ℕ
  research_points_per_turn : ℤ
  complexity_components : Option Breakdown
  history : List HistEntry

/-- Iteration order of the `self.technologies` dictionary. -/
def techList : List Tech := [.ai, .bio, .clean, .info]

/-- Iteration order of the `self.institutions` dictionary. -/
def instList : List Inst := [.edu, .reg, .sci, .safety]

/-- Method `calculate_total_social_capacity` (pure). -/
def calculate_total_social_capacity (g : GameState) : ℚ :=
  let total_capacity : ℚ :=
    (g.instLevel .edu : ℚ) * capacityFactor .edu
      + (g.instLevel .reg : ℚ) * capacityFactor .reg
      + (g.instLevel .sci : ℚ) * capacityFactor .sci
      + (g.instLevel .safety : ℚ) * capacityFactor .safety
  let info_sys_bonus : ℚ := (g.techLevel .info : ℚ) * capacity_bonus
  let capacity_multiplier : ℚ := 1 + info_sys_bonus
  total_capacity * capacity_multiplier

/-- Method `calculate_complexity_growth_modifier` (pure). -/
def calculate_complexity_growth_modifier (g : GameState) : ℚ :=
  let energy_reduction : ℚ := (g.techLevel .clean : ℚ) * complexity_reduction
  let tech_levels_sum : ℕ :=
    g.techLevel .ai + g.techLevel .bio + g.techLevel .clean + g.techLevel .info
  let tech_acceleration : ℚ := 1 + (tech_levels_sum : ℚ) * (1/100)
  tech_acceleration * (1 - energy_reduction)

/-- The `active_techs` list of `calculate_total_complexity`: tracks with
`level > 0`, in dictionary order. -/
def activeTechs (g : GameState) : List Tech :=
  techList.filter (fun t => decide (0 < g.techLevel t))

/-- The `tech_complexity` sum of `calculate_total_complexity`. -/
def techDirect (g : GameState) : ℚ :=
  (g.techLevel .ai : ℚ) * complexityFactor .ai
    + (g.techLevel .bio : ℚ) * complexityFactor .bio
    + (g.techLevel .clean : ℚ) * complexityFactor .clean
    + (g.techLevel .info : ℚ) * complexityFactor .info

/-- The `tech_interaction` term of `calculate_total_complexity`. -/
def techInteraction (g : GameState) : ℚ :=
  let active := activeTechs g
  if 1 < active.length then
    let interaction_level : ℚ :=
      ((active.map fun t => (g.techLevel t : ℚ)).sum) / (active.length : ℚ)
    ((active.length : ℚ) - 1) * interaction_level * (1/2)
  else 0

/-- The breakdown written to `self.complexity_components` by
`calculate_total_complexity`. -/
def complexityBreakdown (g : GameState) : Breakdown :=
  let base_complexity := g.complexity
  let tech_complexity := techDirect g
  let tech_interaction := techInteraction g
  { base := base_complexity
    tech_direct := tech_complexity
    tech_interaction := tech_interaction
    total := base_complexity + tech_complexity + tech_interaction }

/-- Method `calculate_total_complexity`: returns the total and overwrites
`self.complexity_components`. -/
def calculate_total_complexity (g : GameState) : ℚ × GameState :=
  let b := complexityBreakdown g
  (b.total, { g with complexity_components := some b })

/-- Result of `invest_in_technology` / `invest_in_institution`: the
`(success, message)` pair together with the successor state. -/
structure OpResult where
  success : Bool
  message : String
  state : GameState

/-- Method `invest_in_technology`.  `amount // cost_per_level` is Python
floor division, i.e. `Int.fdiv`. -/
def invest_in_technology (g : GameState) (tech_name : String) (amount : ℤ) :
    OpResult :=
  match techOfName tech_name with
  | none => ⟨false, tech_name ++ " is not a valid technology domain", g⟩
  | some t =>
    if amount > g.research_points then
      ⟨false, "Not enough research points", g⟩
    else
      let current_level := g.techLevel t
      let cost_per_level : ℤ := 10 + (current_level : ℤ) * 2
      let levels_gained : ℤ := Int.fdiv amount cost_per_level
      if levels_gained < 1 then
        ⟨false, "Need at least " ++ toString cost_per_level
          ++ " points for one level", g⟩
      else
        let new_level : ℕ := current_level + levels_gained.toNat
        let actual_cost : ℤ := levels_gained * cost_per_level
        let g1 : GameState :=
          { g with
            techLevel := Function.update g.techLevel t new_level
            research_points := g.research_points - actual_cost }
        ⟨true, "Invested " ++ toString actual_cost ++ " points in " ++ tech_name
          ++ ", new level: " ++ toString new_level
          ++ " (+" ++ toString levels_gained ++ ")", g1⟩

/-- Method `invest_in_institution` (the spec calls it
`upgrade_institution`). -/
def invest_in_institution (g : GameState) (inst_name : String) : OpResult :=
  match instOfName inst_name with
  | none => ⟨false, inst_name ++ " is not a valid institution", g⟩
  | some i =>
    let cost : ℤ := instCost i * (g.instLevel i : ℤ)
    if cost > g.research_points then
      ⟨false, "Need " ++ toString cost ++ " points to upgrade " ++ inst_name
        ++ ", but only have " ++ toString g.research_points, g⟩
    else
      let new_level : ℕ := g.instLevel i + 1
      let g1 : GameState :=
        { g with
          instLevel := Function.update g.instLevel i new_level
          research_points := g.research_points - cost }
      ⟨true, "Upgraded " ++ inst_name ++ ", new level: " ++ toString new_level
        ++ " (cost: " ++ toString cost ++ ")", g1⟩

/-- Display name of an institution track (the dictionary key). -/
def instName : Inst → String
  | .edu => "Education System"
  | .reg => "Regulatory Framework"
  | .sci => "Scientific Community"
  | .safety => "Social Safety Net"

/-- Method `trigger_crisis`.  `ck` is the `random.choice(crisis_events)`
draw; `ic` is the `random.choice(list(self.institutions.keys()))` draw
(only consulted for an institutional failure). -/
def trigger_crisis (g : GameState) (severity : ℚ) (ck : CrisisKind)
    (ic : Inst) : CrisisEvent × GameState :=
  let biotech_level := g.techLevel .bio
  let crisis_resistance : ℚ := (biotech_level : ℚ) * crisis_resistance_magnitude
  let adjusted_severity : ℚ := severity * (1 - crisis_resistance)
  match ck with
  | .backlash =>
    let new_rate : ℤ :=
      max 10 (pyint ((g.research_points_per_turn : ℚ) * (1 - adjusted_severity/2)))
    (⟨"Public Backlash",
      "Public fear of technology leads to funding cuts and protests",
      "Public backlash against technology reduced research funding. Points per turn now: "
        ++ toString new_rate,
      severity, adjusted_severity⟩,
     { g with research_points_per_turn := new_rate })
  | .accident =>
    let complexity_increase : ℤ := pyint (g.complexity * adjusted_severity)
    (⟨"Technological Accident",
      "An unforeseen interaction between technologies creates new risks",
      "A technological accident increased complexity by "
        ++ toString complexity_increase,
      severity, adjusted_severity⟩,
     { g with complexity := g.complexity + (complexity_increase : ℚ) })
  | .institutional =>
    let level_reduction : ℤ :=
      max 1 (pyint ((g.instLevel ic : ℚ) * adjusted_severity))
    let new_level : ℤ := max 1 ((g.instLevel ic : ℤ) - level_reduction)
    (⟨"Institutional Failure",
      "A key social institution proves unable to handle the pace of change",
      instName ic ++ " suffered a setback, losing "
        ++ toString level_reduction ++ " levels",
      severity, adjusted_severity⟩,
     { g with instLevel := Function.update g.instLevel ic new_level.toNat })
  | .shortage =>
    let loss : ℤ := pyint ((g.research_points : ℚ) * adjusted_severity)
    (⟨"Resource Shortage",
      "Critical resources are depleted or misallocated amid complexity",
      "Resource shortage resulted in the loss of " ++ toString loss
        ++ " research points",
      severity, adjusted_severity⟩,
     { g with research_points := max 0 (g.research_points - loss) })

/-- The dictionary returned by `next_turn` (the two percentage strings of
the Python dict are kept as their underlying rational values, since they
are display formatting only). -/
structure TurnSummary where
  turn : ℕ
  research_points : ℤ
  complexity : ℚ
  capacity : ℚ
  balance : ℚ
  complexity_growth : ℚ
  research_bonus_value : ℚ
  crisis_event : Option CrisisEvent

/-- Method `next_turn` (the spec calls it `advance_turn`), in the exact
statement order of the source: increment the turn, snapshot complexity
(which overwrites the breakdown), capacity and the growth modifier, maybe
trigger a crisis, award research points, grow `self.complexity`, append to
history, and return the summary. -/
def next_turn (g : GameState) (ck : CrisisKind) (ic : Inst) :
    TurnSummary × GameState :=
  let g0 : GameState := { g with turn := g.turn + 1 }
  let cc := calculate_total_complexity g0
  let current_complexity : ℚ := cc.1
  let g1 : GameState := cc.2
  let current_capacity : ℚ := calculate_total_social_capacity g1
  let complexity_growth_modifier : ℚ := calculate_complexity_growth_modifier g1
  let crisis : Option CrisisEvent × GameState :=
    if current_complexity > current_capacity * (1 + crisis_threshold) then
      let severity : ℚ := (current_complexity - current_capacity) / current_capacity
      let ev := trigger_crisis g1 severity ck ic
      (some ev.1, ev.2)
    else (none, g1)
  let crisis_event := crisis.1
  let g2 := crisis.2
  let ai_level := g2.techLevel .ai
  let research_multiplier : ℚ := 1 + (ai_level : ℚ) * research_bonus
  let g3 : GameState :=
    { g2 with research_points :=
        g2.research_points
          + pyint ((g2.research_points_per_turn : ℚ) * research_multiplier) }
  let g4 : GameState :=
    { g3 with complexity :=
        g3.complexity * (complexity_growth_rate * complexity_growth_modifier) }
  let g5 : GameState :=
    { g4 with history := g4.history ++
        [⟨g4.turn, current_complexity, current_capacity, g4.research_points,
          crisis_event⟩] }
  (⟨g5.turn, g5.research_points, current_complexity, current_capacity,
    current_capacity - current_complexity,
    complexity_growth_rate * complexity_growth_modifier - 1,
    research_multiplier - 1, crisis_event⟩, g5)

/-- Method `game_status`: returns the status string; the successor state
records the `complexity_components` overwrite performed by its call to
`calculate_total_complexity`. -/
def game_status (g : GameState) : String × GameState :=
  let cc := calculate_total_complexity g
  let current_complexity : ℚ := cc.1
  let g1 : GameState := cc.2
  let current_capacity : ℚ := calculate_total_social_capacity g1
  if current_complexity > current_capacity * 3 then
    ("GAME OVER: Complexity catastrophically overwhelmed society\x27s capacity", g1)
  else if g1.turn ≥ 30 then
    if current_capacity > current_complexity * (11/10) then
      ("VICTORY: Achieved sustainable technological progress", g1)
    else if current_capacity > current_complexity then
      ("PARTIAL VICTORY: Barely managing complexity", g1)
    else
      ("GAME OVER: Failed to manage complexity in the allotted time", g1)
  else
    ("ONGOING", g1)

/-- The state assembled by `__init__` before the `self.history` lines run:
turn 0, 100 research points, base complexity 10, all technologies at
level 0, all institutions at level 1, 50 research points per turn, and no
breakdown computed yet (`self.complexity_components = {}`). -/
def initBase : GameState :=
  { turn := 0
    research_points := 100
    complexity := 10
    techLevel := fun _ => 0
    instLevel := fun _ => 1
    research_points_per_turn := 50
    complexity_components := none
    history := [] }

/-- The state right after `__init__` returns: building `self.history`
calls `calculate_total_complexity` (overwriting the breakdown) and
`calculate_total_social_capacity`, and records the turn-0 entry. -/
def initialState : GameState :=
  let cc := calculate_total_complexity initBase
  let g1 := cc.2
  let cap := calculate_total_social_capacity g1
  { g1 with history := [⟨0, cc.1, cap, g1.research_points, none⟩] }

/-- Fold `next_turn` over a list of per-turn random draws. -/
def runTurns (g : GameState) : List (CrisisKind × Inst) → GameState
  | [] => g
  | d :: ds => runTurns (next_turn g d.1 d.2).2 ds

/-- States reachable from a fresh `TechProgressGame()` by the public
operations (with arbitrary arguments and arbitrary random draws). -/
inductive Reachable : GameState → Prop
  | init : Reachable initialState
  | invest (g : GameState) (name : String) (amount : ℤ) :
      Reachable g → Reachable (invest_in_technology g name amount).state
  | upgrade (g : GameState) (name : String) :
      Reachable g → Reachable (invest_in_institution g name).state
  | advance (g : GameState) (ck : CrisisKind) (ic : Inst) :
      Reachable g → Reachable (next_turn g ck ic).2
  | status (g : GameState) :
      Reachable g → Reachable (game_status g).2

/-! ### Basic facts about the embedded operations -/

lemma pyint_nonneg (q : ℚ) (h : 0 ≤ q) : 0 ≤ pyint q := by
  unfold pyint
  rw [if_pos h]
  exact Int.floor_nonneg.mpr h

lemma max_one_pyint_eq_max_one_floor (q : ℚ) : max 1 (pyint q) = max 1 ⌊q⌋ := by
  unfold pyint
  split
  · rfl
  · rename_i h
    push_neg at h
    have hce : ⌈q⌉ ≤ 0 := Int.ceil_le.mpr (by exact_mod_cast h.le)
    have hfl : ⌊q⌋ ≤ 0 := le_trans (Int.floor_le_ceil q) hce
    rw [max_eq_left (by omega), max_eq_left (by omega)]

lemma capacity_nonneg (g : GameState) : 0 ≤ calculate_total_social_capacity g := by
  unfold calculate_total_social_capacity capacityFactor capacity_bonus
  positivity

lemma severity_nonneg (g : GameState)
    (h : (calculate_total_complexity g).1
      > calculate_total_social_capacity g * (1 + crisis_threshold)) :
    0 ≤ ((calculate_total_complexity g).1 - calculate_total_social_capacity g)
      / calculate_total_social_capacity g := by
  rcases eq_or_lt_of_le (capacity_nonneg g) with hz | hpos
  · rw [← hz, div_zero]
  · apply div_nonneg _ hpos.le
    have : 0 < calculate_total_social_capacity g * crisis_threshold := by
      rw [crisis_threshold]; positivity
    nlinarith [h]

lemma trigger_crisis_severity (g : GameState) (s : ℚ) (ck : CrisisKind) (ic : Inst) :
    (trigger_crisis g s ck ic).1.severity = s := by
  cases ck <;> rfl

lemma trigger_crisis_adjusted (g : GameState) (s : ℚ) (ck : CrisisKind) (ic : Inst) :
    (trigger_crisis g s ck ic).1.adjusted_severity
      = s * (1 - (g.techLevel .bio : ℚ) * crisis_resistance_magnitude) := by
  cases ck <;> rfl

lemma trigger_crisis_turn (g : GameState) (s : ℚ) (ck : CrisisKind) (ic : Inst) :
    ((trigger_crisis g s ck ic).2).turn = g.turn := by
  cases ck <;> rfl

lemma trigger_crisis_techLevel (g : GameState) (s : ℚ) (ck : CrisisKind) (ic : Inst) :
    ((trigger_crisis g s ck ic).2).techLevel = g.techLevel := by
  cases ck <;> rfl

lemma trigger_crisis_complexity (g : GameState) (s : ℚ) (ck : CrisisKind) (ic : Inst) :
    ((trigger_crisis g s ck ic).2).complexity
      = if ck = .accident then
          g.complexity + (pyint (g.complexity *
            (s * (1 - (g.techLevel .bio : ℚ) * crisis_resistance_magnitude))) : ℚ)
        else g.complexity := by
  cases ck <;> rfl

lemma trigger_crisis_research_points (g : GameState) (s : ℚ) (ck : CrisisKind)
    (ic : Inst) (h : 0 ≤ g.research_points) :
    0 ≤ ((trigger_crisis g s ck ic).2).research_points := by
  cases ck
  · exact h
  · exact h
  · exact h
  · exact le_max_left 0 _

lemma trigger_crisis_rate (g : GameState) (s : ℚ) (ck : CrisisKind) (ic : Inst)
    (h : 0 ≤ g.research_points_per_turn) :
    0 ≤ ((trigger_crisis g s ck ic).2).research_points_per_turn := by
  cases ck
  · exact le_trans (by norm_num) (le_max_left 10 _)
  · exact h
  · exact h
  · exact h

lemma one_le_toNat_max_one (z : ℤ) : 1 ≤ (max 1 z).toNat := by
  have h1 : (1 : ℤ) ≤ max 1 z := le_max_left 1 z
  omega

lemma trigger_crisis_instLevel (g : GameState) (s : ℚ) (ck : CrisisKind) (ic : Inst)
    (i : Inst) (h : 1 ≤ g.instLevel i) :
    1 ≤ ((trigger_crisis g s ck ic).2).instLevel i := by
  cases ck
  · exact h
  · exact h
  · rcases eq_or_ne i ic with rfl | hne
    · rw [show ((trigger_crisis g s .institutional i).2).instLevel i
          = (max 1 ((g.instLevel i : ℤ) - max 1 (pyint ((g.instLevel i : ℚ)
              * (s * (1 - (g.techLevel .bio : ℚ) * crisis_resistance_magnitude)))))).toNat
          from by simp [trigger_crisis, Function.update_same]]
      exact one_le_toNat_max_one _
    · rw [show ((trigger_crisis g s .institutional ic).2).instLevel i
          = g.instLevel i from by simp [trigger_crisis, Function.update_noteq hne]]
      exact h
  · exact h

/-- C1: in `next_turn`, a crisis fires if and only if the snapshot total
complexity exceeds the snapshot total capacity times `1 + crisis_threshold`
(= 1.2), and the raw severity handed to `trigger_crisis` is
`(complexity − capacity) / capacity`.  The snapshot is taken after the turn
counter has been incremented and before growth is applied; the turn counter
does not enter either formula, so the snapshot equals the totals of the
pre-call state. -/
theorem C1_crisis_trigger_iff (g : GameState) (ck : CrisisKind) (ic : Inst) :
    (1 + crisis_threshold : ℚ) = 6/5 ∧
    ((next_turn g ck ic).1.crisis_event).map CrisisEvent.severity =
      (if (calculate_total_complexity g).1
          > calculate_total_social_capacity g * (1 + crisis_threshold)
       then some (((calculate_total_complexity g).1 - calculate_total_social_capacity g)
            / calculate_total_social_capacity g)
       else none) := by
  refine ⟨by norm_num [crisis_threshold], ?_⟩
  have hcomp : (calculate_total_complexity {g with turn := g.turn + 1}).1
      = (calculate_total_complexity g).1 := rfl
  have hcap : calculate_total_social_capacity
      ((calculate_total_complexity {g with turn := g.turn + 1}).2)
      = calculate_total_social_capacity g := rfl
  unfold next_turn
  dsimp only
  split
  · rename_i h
    rw [hcomp, hcap] at h
    rw [if_pos h]
    cases ck <;> rfl
  · rename_i h
    rw [hcomp, hcap] at h
    rw [if_neg h]
    rfl

/-- A state whose Biotechnology track has level 11 (every other technology
at level 0), used to exercise `trigger_crisis` with a resilience level
whose reduction factor exceeds 1. -/
def highBioState : GameState :=
  { initialState with techLevel := Function.update initialState.techLevel Tech.bio 11 }

/-- C2, counterexample: the claim asserts the adjusted severity is clamped
so it never goes below zero.  The code applies no clamp: with Biotechnology
at level 11 the factor `1 − 11 × 0.1` is negative, so a crisis with raw
severity 1 (> 0) is resolved with adjusted severity −1/10 < 0. -/
theorem C2_counterexample :
    (0 : ℚ) < 1 ∧
      ((trigger_crisis highBioState 1 CrisisKind.backlash Inst.edu).1).adjusted_severity
        < 0 := by
  constructor
  · norm_num
  · show (1 : ℚ) * (1 - (11 : ℚ) * crisis_resistance_magnitude) < 0
    norm_num [crisis_resistance_magnitude]

/-- C2, amended: for every crisis the adjusted severity equals
`severity × (1 − biotech_level × 0.1)` exactly as the claim states, but no
clamping is applied: when the raw severity is positive the adjusted
severity is negative precisely when the Biotechnology level exceeds 10. -/
theorem C2_adjusted_severity (g : GameState) (severity : ℚ) (ck : CrisisKind)
    (ic : Inst) (h : 0 < severity) :
    (trigger_crisis g severity ck ic).1.adjusted_severity
        = severity * (1 - (g.techLevel .bio : ℚ) * crisis_resistance_magnitude) ∧
      ((trigger_crisis g severity ck ic).1.adjusted_severity < 0 ↔
        10 < g.techLevel .bio) := by
  refine ⟨trigger_crisis_adjusted g severity ck ic, ?_⟩
  rw [trigger_crisis_adjusted]
  have hb : ((10 : ℚ) < (g.techLevel .bio : ℚ)) ↔ 10 < g.techLevel .bio := by
    exact_mod_cast Iff.rfl
  rw [crisis_resistance_magnitude]
  constructor
  · intro hlt
    rw [← hb]
    nlinarith
  · intro hgt
    have : (10 : ℚ) < (g.techLevel .bio : ℚ) := hb.mpr hgt
    have hneg : 1 - (g.techLevel .bio : ℚ) * (1/10) < 0 := by linarith
    exact mul_neg_of_pos_of_neg h hneg

/-- C2, witness for the amended theorem at a concrete input. -/
theorem C2_adjusted_severity_witness :
    (0 : ℚ) < 1 ∧
      ((trigger_crisis initialState 1 CrisisKind.backlash Inst.edu).1.adjusted_severity
          = 1 * (1 - (initialState.techLevel .bio : ℚ) * crisis_resistance_magnitude) ∧
        ((trigger_crisis initialState 1 CrisisKind.backlash Inst.edu).1.adjusted_severity
            < 0 ↔ 10 < initialState.techLevel .bio)) :=
  ⟨by norm_num, C2_adjusted_severity initialState 1 CrisisKind.backlash Inst.edu (by norm_num)⟩

/-- The reachable state obtained from a fresh game by investing 20 points
in Clean Energy: the track reaches level 2 and 80 points remain. -/
def cleanTwoState : GameState :=
  (invest_in_technology initialState "Clean Energy" 20).state

/-- C3, counterexample: the claim asserts the base complexity seed is
strictly larger after every `next_turn` call.  From the reachable state
with Clean Energy at level 2 the growth factor is
`1.08 × (1 + 0.02) × (1 − 0.10) = 0.99144 < 1`, and the fired crisis (a
public backlash draw) leaves the seed untouched, so the seed strictly
decreases: 10 → 9.9144. -/
theorem C3_counterexample :
    ((next_turn cleanTwoState CrisisKind.backlash Inst.edu).2).complexity
      < cleanTwoState.complexity := by
  have hcomp : ((next_turn cleanTwoState CrisisKind.backlash Inst.edu).2).complexity
      = cleanTwoState.complexity
        * (complexity_growth_rate * calculate_complexity_growth_modifier cleanTwoState) := by
    unfold next_turn
    dsimp only
    split
    · rw [trigger_crisis_complexity]
      rw [if_neg (by intro hab; cases hab)]
      rfl
    · rfl
  have hfd : (Int.fdiv 20 10).toNat = 2 := rfl
  have hfd1 : Int.fdiv 20 10 = 2 := rfl
  have hrp : initialState.research_points = 100 := rfl
  have h0 : initialState.techLevel = fun _ => 0 := rfl
  have hcx : initialState.complexity = 10 := rfl
  have htech : cleanTwoState.techLevel = Function.update (fun _ => 0) Tech.clean 2 := by
    norm_num [cleanTwoState, invest_in_technology, techOfName, h0, hfd1, hrp]
    rfl
  have hc : cleanTwoState.complexity = 10 := by
    norm_num [cleanTwoState, invest_in_technology, techOfName, h0, hfd1, hrp, hcx]
  have u1 : Function.update (fun _ => (0:ℕ)) Tech.clean 2 Tech.ai = 0 := rfl
  have u2 : Function.update (fun _ => (0:ℕ)) Tech.clean 2 Tech.bio = 0 := rfl
  have u3 : Function.update (fun _ => (0:ℕ)) Tech.clean 2 Tech.clean = 2 := rfl
  have u4 : Function.update (fun _ => (0:ℕ)) Tech.clean 2 Tech.info = 0 := rfl
  rw [hcomp, hc]
  norm_num [calculate_complexity_growth_modifier, complexity_growth_rate,
    complexity_reduction, htech, u1, u2, u3, u4]

/-- C3, amended: `next_turn` multiplies the seed by
`complexity_growth_rate × complexity_growth_modifier` (after any
technological-accident increase), so the seed strictly grows whenever it is
positive, Biotechnology is at most level 10 (so an accident cannot shrink
it), and that combined factor exceeds 1 — but not in general. -/
theorem C3_seed_growth (g : GameState) (ck : CrisisKind) (ic : Inst)
    (h0 : 0 < g.complexity) (hbio : g.techLevel .bio ≤ 10)
    (hgrow : 1 < complexity_growth_rate * calculate_complexity_growth_modifier g) :
    g.complexity < ((next_turn g ck ic).2).complexity := by
  have hcomp : (calculate_total_complexity {g with turn := g.turn + 1}).1
      = (calculate_total_complexity g).1 := rfl
  have hcap : calculate_total_social_capacity
      ((calculate_total_complexity {g with turn := g.turn + 1}).2)
      = calculate_total_social_capacity g := rfl
  have hmod : calculate_complexity_growth_modifier
      ((calculate_total_complexity {g with turn := g.turn + 1}).2)
      = calculate_complexity_growth_modifier g := rfl
  have hbioq : (g.techLevel .bio : ℚ) ≤ 10 := by exact_mod_cast hbio
  unfold next_turn
  dsimp only
  split
  · rename_i h
    rw [hcomp, hcap] at h
    rw [trigger_crisis_complexity]
    rw [show ((calculate_total_complexity {g with turn := g.turn + 1}).2).complexity
        = g.complexity from rfl]
    rw [show ((calculate_total_complexity {g with turn := g.turn + 1}).2).techLevel
        = g.techLevel from rfl]
    rw [hmod, hcomp, hcap]
    have hsev := severity_nonneg g h
    have hadj : 0 ≤ (((calculate_total_complexity g).1 - calculate_total_social_capacity g)
        / calculate_total_social_capacity g)
        * (1 - (g.techLevel .bio : ℚ) * crisis_resistance_magnitude) := by
      apply mul_nonneg hsev
      rw [crisis_resistance_magnitude]
      linarith
    split
    · have hδ : (0 : ℚ) ≤ (pyint (g.complexity *
          ((((calculate_total_complexity g).1 - calculate_total_social_capacity g)
            / calculate_total_social_capacity g)
            * (1 - (g.techLevel .bio : ℚ) * crisis_resistance_magnitude))) : ℤ) := by
        exact_mod_cast pyint_nonneg _ (mul_nonneg h0.le hadj)
      nlinarith [mul_pos h0 (sub_pos.mpr hgrow),
        mul_nonneg hδ (le_of_lt (lt_trans zero_lt_one hgrow))]
    · nlinarith [mul_pos h0 (sub_pos.mpr hgrow)]
  · rw [show ((calculate_total_complexity {g with turn := g.turn + 1}).2).complexity
        = g.complexity from rfl]
    rw [hmod]
    nlinarith [mul_pos h0 (sub_pos.mpr hgrow)]

/-- C3, witness for the amended theorem at a concrete input. -/
theorem C3_seed_growth_witness :
    (0 : ℚ) < initialState.complexity ∧ initialState.techLevel .bio ≤ 10 ∧
      (1 : ℚ) < complexity_growth_rate * calculate_complexity_growth_modifier initialState ∧
      initialState.complexity
        < ((next_turn initialState CrisisKind.backlash Inst.edu).2).complexity := by
  have h0 : initialState.techLevel = fun _ => 0 := rfl
  have h1 : (0 : ℚ) < initialState.complexity := by
    rw [show initialState.complexity = (10 : ℚ) from rfl]
    norm_num
  have h2 : initialState.techLevel .bio ≤ 10 := by rw [h0]; norm_num
  have h3 : (1 : ℚ)
      < complexity_growth_rate * calculate_complexity_growth_modifier initialState := by
    norm_num [complexity_growth_rate, calculate_complexity_growth_modifier, h0]
  exact ⟨h1, h2, h3,
    C3_seed_growth initialState CrisisKind.backlash Inst.edu h1 h2 h3⟩

lemma fdiv_mul_le (a b : ℤ) (hb : 0 < b) : Int.fdiv a b * b ≤ a := by
  rw [Int.fdiv_eq_ediv a hb.le]
  exact Int.ediv_mul_le a hb.ne'

lemma cost_per_level_pos (n : ℕ) : (0 : ℤ) < 10 + (n : ℤ) * 2 := by positivity

/-- C4: for a recognized track and an affordable amount,
`invest_in_technology` buys exactly `amount // (10 + 2·level)` levels; if
that quotient is below 1 it fails with the minimum needed and no state
change, otherwise it adds the quotient to the level and deducts exactly
`levels × cost_per_level`, which never exceeds the requested amount.  In
particular investing 30 from the fresh state buys 3 levels and leaves 70
points. -/
theorem C4_invest_in_technology :
    (∀ (g : GameState) (name : String) (t : Tech) (amount : ℤ),
      techOfName name = some t → amount ≤ g.research_points →
      ((Int.fdiv amount (10 + (g.techLevel t : ℤ) * 2) < 1 →
          invest_in_technology g name amount =
            ⟨false, "Need at least " ++ toString (10 + (g.techLevel t : ℤ) * 2)
              ++ " points for one level", g⟩) ∧
        (1 ≤ Int.fdiv amount (10 + (g.techLevel t : ℤ) * 2) →
          (invest_in_technology g name amount).success = true ∧
          (invest_in_technology g name amount).state.techLevel t
            = g.techLevel t + (Int.fdiv amount (10 + (g.techLevel t : ℤ) * 2)).toNat ∧
          (invest_in_technology g name amount).state.research_points
            = g.research_points - Int.fdiv amount (10 + (g.techLevel t : ℤ) * 2)
                * (10 + (g.techLevel t : ℤ) * 2) ∧
          Int.fdiv amount (10 + (g.techLevel t : ℤ) * 2)
              * (10 + (g.techLevel t : ℤ) * 2) ≤ amount))) ∧
    ((invest_in_technology initialState "AI & Automation" 30).success = true ∧
      (invest_in_technology initialState "AI & Automation" 30).state.techLevel .ai = 3 ∧
      (invest_in_technology initialState "AI & Automation" 30).state.research_points
        = 70) := by
  constructor
  · intro g name t amount ht hle
    unfold invest_in_technology
    rw [ht]
    dsimp only
    rw [if_neg (not_lt.mpr hle)]
    constructor
    · intro hq
      rw [if_pos hq]
    · intro hq
      rw [if_neg (not_lt.mpr hq)]
      refine ⟨rfl, ?_, rfl, fdiv_mul_le amount _ (cost_per_level_pos (g.techLevel t))⟩
      exact Function.update_same t _ g.techLevel
  · have hrp : initialState.research_points = 100 := rfl
    have h0 : initialState.techLevel = fun _ => 0 := rfl
    have hfd : Int.fdiv 30 10 = 3 := rfl
    have htn : Int.toNat 3 = 3 := rfl
    refine ⟨?_, ?_, ?_⟩ <;>
      norm_num [invest_in_technology, techOfName, hrp, h0, hfd, htn,
        Function.update_same]

/-- C4, witness: the general part applied at the fresh state, Biotechnology
and amount 20. -/
theorem C4_invest_in_technology_witness :
    techOfName "Biotechnology" = some Tech.bio ∧
      (20 : ℤ) ≤ initialState.research_points ∧
      (1 : ℤ) ≤ Int.fdiv 20 (10 + (initialState.techLevel Tech.bio : ℤ) * 2) ∧
      (invest_in_technology initialState "Biotechnology" 20).state.techLevel Tech.bio
        = initialState.techLevel Tech.bio
          + (Int.fdiv 20 (10 + (initialState.techLevel Tech.bio : ℤ) * 2)).toNat := by
  have h1 : techOfName "Biotechnology" = some Tech.bio := rfl
  have h2 : (20 : ℤ) ≤ initialState.research_points := by
    rw [show initialState.research_points = (100 : ℤ) from rfl]; norm_num
  have h3 : (1 : ℤ) ≤ Int.fdiv 20 (10 + (initialState.techLevel Tech.bio : ℤ) * 2) := by
    rw [show initialState.techLevel Tech.bio = 0 from rfl]
    norm_num [show Int.fdiv 20 10 = (2:ℤ) from rfl]
  exact ⟨h1, h2, h3,
    ((C4_invest_in_technology.1 initialState "Biotechnology" Tech.bio 20 h1 h2).2 h3).2.1⟩

/-- C5: every failing `invest_in_technology` or `invest_in_institution`
call — unrecognized track, amount exceeding the pool, amount below one
level, or unaffordable upgrade — returns `success = false` with its
descriptive message and leaves the state completely unchanged; more
generally any unsuccessful call leaves the state unchanged. -/
theorem C5_failure_leaves_state_unchanged (g : GameState) (name : String)
    (amount : ℤ) :
    (techOfName name = none →
      invest_in_technology g name amount
        = ⟨false, name ++ " is not a valid technology domain", g⟩) ∧
    (∀ t, techOfName name = some t → g.research_points < amount →
      invest_in_technology g name amount
        = ⟨false, "Not enough research points", g⟩) ∧
    (∀ t, techOfName name = some t → amount ≤ g.research_points →
      Int.fdiv amount (10 + (g.techLevel t : ℤ) * 2) < 1 →
      invest_in_technology g name amount
        = ⟨false, "Need at least " ++ toString (10 + (g.techLevel t : ℤ) * 2)
            ++ " points for one level", g⟩) ∧
    ((invest_in_technology g name amount).success = false →
      (invest_in_technology g name amount).state = g) ∧
    (instOfName name = none →
      invest_in_institution g name
        = ⟨false, name ++ " is not a valid institution", g⟩) ∧
    (∀ i, instOfName name = some i →
      g.research_points < instCost i * (g.instLevel i : ℤ) →
      invest_in_institution g name
        = ⟨false, "Need " ++ toString (instCost i * (g.instLevel i : ℤ))
            ++ " points to upgrade " ++ name ++ ", but only have "
            ++ toString g.research_points, g⟩) ∧
    ((invest_in_institution g name).success = false →
      (invest_in_institution g name).state = g) := by
  refine ⟨?_, ?_, ?_, ?_, ?_, ?_, ?_⟩
  · intro h
    unfold invest_in_technology
    rw [h]
  · intro t ht hlt
    unfold invest_in_technology
    rw [ht]
    dsimp only
    rw [if_pos hlt]
  · intro t ht hle hq
    unfold invest_in_technology
    rw [ht]
    dsimp only
    rw [if_neg (not_lt.mpr hle), if_pos hq]
  · unfold invest_in_technology
    cases hm : techOfName name
    · intro
      rfl
    · dsimp only
      split
      · intro
        rfl
      · split
        · intro
          rfl
        · intro h
          simp at h
  · intro h
    unfold invest_in_institution
    rw [h]
  · intro i hi hlt
    unfold invest_in_institution
    rw [hi]
    dsimp only
    rw [if_pos hlt]
  · unfold invest_in_institution
    cases hm : instOfName name
    · intro
      rfl
    · dsimp only
      split
      · intro
        rfl
      · intro h
        simp at h

/-- C5, witness: the unrecognized-name failures applied at the fresh state. -/
theorem C5_failure_witness :
    techOfName "Quantum" = none ∧
      invest_in_technology initialState "Quantum" 5
        = ⟨false, "Quantum" ++ " is not a valid technology domain", initialState⟩ :=
  ⟨rfl, (C5_failure_leaves_state_unchanged initialState "Quantum" 5).1 rfl⟩

lemma game_status_state (g : GameState) :
    (game_status g).2 = (calculate_total_complexity g).2 := by
  unfold game_status
  dsimp only
  split_ifs <;> rfl

lemma game_status_fst (g : GameState) :
    (game_status g).1 =
      if (calculate_total_complexity g).1 > calculate_total_social_capacity g * 3 then
        "GAME OVER: Complexity catastrophically overwhelmed society\x27s capacity"
      else if g.turn ≥ 30 then
        if calculate_total_social_capacity g > (calculate_total_complexity g).1 * (11/10)
        then "VICTORY: Achieved sustainable technological progress"
        else if calculate_total_social_capacity g > (calculate_total_complexity g).1
        then "PARTIAL VICTORY: Barely managing complexity"
        else "GAME OVER: Failed to manage complexity in the allotted time"
      else "ONGOING" := by
  have hcap : calculate_total_social_capacity ((calculate_total_complexity g).2)
      = calculate_total_social_capacity g := rfl
  have ht : ((calculate_total_complexity g).2).turn = g.turn := rfl
  unfold game_status
  dsimp only
  rw [hcap, ht]
  split_ifs <;> rfl

/-- C6: `game_status` classifies every state from the current totals:
catastrophic-overwhelm defeat when complexity exceeds three times
capacity; otherwise at turn 30 or later, victory when capacity exceeds
complexity by more than 10 %, partial victory when capacity merely exceeds
complexity, defeat otherwise; otherwise the game is ongoing.  A second
call with no intervening operation returns the identical result. -/
theorem C6_game_status (g : GameState) :
    ((calculate_total_complexity g).1 > calculate_total_social_capacity g * 3 →
      (game_status g).1
        = "GAME OVER: Complexity catastrophically overwhelmed society\x27s capacity") ∧
    (¬ (calculate_total_complexity g).1 > calculate_total_social_capacity g * 3 →
      30 ≤ g.turn →
      ((calculate_total_social_capacity g > (calculate_total_complexity g).1 * (11/10) →
          (game_status g).1 = "VICTORY: Achieved sustainable technological progress") ∧
        (¬ calculate_total_social_capacity g > (calculate_total_complexity g).1 * (11/10) →
          calculate_total_social_capacity g > (calculate_total_complexity g).1 →
          (game_status g).1 = "PARTIAL VICTORY: Barely managing complexity") ∧
        (¬ calculate_total_social_capacity g > (calculate_total_complexity g).1 →
          (game_status g).1
            = "GAME OVER: Failed to manage complexity in the allotted time"))) ∧
    (¬ (calculate_total_complexity g).1 > calculate_total_social_capacity g * 3 →
      g.turn < 30 → (game_status g).1 = "ONGOING") ∧
    game_status ((game_status g).2) = game_status g := by
  refine ⟨?_, ?_, ?_, ?_⟩
  · intro h1
    rw [game_status_fst, if_pos h1]
  · intro h1 h2
    refine ⟨?_, ?_, ?_⟩
    · intro h3
      rw [game_status_fst, if_neg h1, if_pos h2, if_pos h3]
    · intro h3 h4
      rw [game_status_fst, if_neg h1, if_pos h2, if_neg h3, if_pos h4]
    · intro h3
      have h4 : ¬ calculate_total_social_capacity g
          > (calculate_total_complexity g).1 * (11/10) := by
        push_neg at h3 ⊢
        linarith [capacity_nonneg g]
      rw [game_status_fst, if_neg h1, if_pos h2, if_neg h4, if_neg h3]
  · intro h1 h2
    rw [game_status_fst, if_neg h1, if_neg (by omega : ¬ g.turn ≥ 30)]
  · rw [game_status_state]
    rfl

/-- C6, witness: the classification applied at the fresh state, which is
ongoing (complexity 10 does not exceed three times capacity 6.4, and the
turn counter is 0). -/
theorem C6_game_status_witness :
    ¬ (calculate_total_complexity initialState).1
        > calculate_total_social_capacity initialState * 3 ∧
      initialState.turn < 30 ∧ (game_status initialState).1 = "ONGOING" := by
  have h0 : initialState.techLevel = fun _ => 0 := rfl
  have hi0 : initialState.instLevel = fun _ => 1 := rfl
  have hcx : initialState.complexity = 10 := rfl
  have hc : (calculate_total_complexity initialState).1 = 10 := by
    norm_num [calculate_total_complexity, complexityBreakdown, techDirect,
      techInteraction, activeTechs, techList, complexityFactor, h0, hcx]
  have hcap : calculate_total_social_capacity initialState = 32/5 := by
    norm_num [calculate_total_social_capacity, capacityFactor, capacity_bonus, h0, hi0]
  have h1 : ¬ (calculate_total_complexity initialState).1
      > calculate_total_social_capacity initialState * 3 := by
    rw [hc, hcap]
    norm_num
  have h2 : initialState.turn < 30 := by
    rw [show initialState.turn = 0 from rfl]
    norm_num
  exact ⟨h1, h2, (C6_game_status initialState).2.2.1 h1 h2⟩

/-- C8: the total complexity is the base seed plus the per-track direct
sum plus the interaction term; the interaction term is 0 with fewer than
two active tracks and otherwise `(count − 1) × mean_active_level × 0.5`;
the breakdown is overwritten with exactly these components, and
recomputing with no intervening mutation returns the identical value and
breakdown. -/
theorem C8_total_complexity (g : GameState) :
    ((calculate_total_complexity g).1
        = g.complexity + techDirect g + techInteraction g) ∧
    (∀ t : Tech, t ∈ activeTechs g ↔ 0 < g.techLevel t) ∧
    ((activeTechs g).length < 2 → techInteraction g = 0) ∧
    (2 ≤ (activeTechs g).length →
      techInteraction g = (((activeTechs g).length : ℚ) - 1)
        * (((activeTechs g).map fun t => (g.techLevel t : ℚ)).sum
            / ((activeTechs g).length : ℚ)) * (1/2)) ∧
    ((calculate_total_complexity g).2.complexity_components
        = some ⟨g.complexity, techDirect g, techInteraction g,
            g.complexity + techDirect g + techInteraction g⟩) ∧
    calculate_total_complexity ((calculate_total_complexity g).2)
      = calculate_total_complexity g := by
  refine ⟨rfl, ?_, ?_, ?_, rfl, rfl⟩
  · intro t
    cases t <;> simp [activeTechs, techList]
  · intro h
    unfold techInteraction
    rw [if_neg (by omega)]
  · intro h
    unfold techInteraction
    rw [if_pos (by omega : 1 < (activeTechs g).length)]

/-- C8, witness: the fresh state has no active track, so its interaction
term is zero. -/
theorem C8_total_complexity_witness :
    (activeTechs initialState).length < 2 ∧ techInteraction initialState = 0 :=
  ⟨by decide, (C8_total_complexity initialState).2.2.1 (by decide)⟩

/-- Invariant maintained by every operation: nonnegative resource pool,
nonnegative per-turn award rate, and every institution at level ≥ 1. -/
def StateOK (g : GameState) : Prop :=
  0 ≤ g.research_points ∧ 0 ≤ g.research_points_per_turn ∧ ∀ i, 1 ≤ g.instLevel i

lemma stateOK_initial : StateOK initialState := by
  refine ⟨?_, ?_, ?_⟩
  · rw [show initialState.research_points = (100 : ℤ) from rfl]
    norm_num
  · rw [show initialState.research_points_per_turn = (50 : ℤ) from rfl]
    norm_num
  · intro i
    rw [show initialState.instLevel i = 1 from rfl]

lemma stateOK_invest (g : GameState) (name : String) (amount : ℤ)
    (h : StateOK g) : StateOK (invest_in_technology g name amount).state := by
  obtain ⟨h1, h2, h3⟩ := h
  unfold invest_in_technology
  cases hm : techOfName name
  · exact ⟨h1, h2, h3⟩
  · dsimp only
    split
    · exact ⟨h1, h2, h3⟩
    · rename_i t hgt
      split
      · exact ⟨h1, h2, h3⟩
      · refine ⟨?_, h2, h3⟩
        have hb := fdiv_mul_le amount _ (cost_per_level_pos (g.techLevel t))
        push_neg at hgt
        show (0 : ℤ) ≤ g.research_points - _
        linarith

lemma stateOK_upgrade (g : GameState) (name : String)
    (h : StateOK g) : StateOK (invest_in_institution g name).state := by
  obtain ⟨h1, h2, h3⟩ := h
  unfold invest_in_institution
  cases hm : instOfName name
  · exact ⟨h1, h2, h3⟩
  · rename_i i
    dsimp only
    split
    · exact ⟨h1, h2, h3⟩
    · rename_i hgt
      push_neg at hgt
      refine ⟨by show (0 : ℤ) ≤ g.research_points - _; linarith, h2, ?_⟩
      intro j
      show 1 ≤ Function.update g.instLevel i (g.instLevel i + 1) j
      rcases eq_or_ne j i with rfl | hne
      · rw [Function.update_same]
        omega
      · rw [Function.update_noteq hne]
        exact h3 j

lemma stateOK_trigger (g : GameState) (s : ℚ) (ck : CrisisKind) (ic : Inst)
    (h : StateOK g) : StateOK (trigger_crisis g s ck ic).2 := by
  obtain ⟨h1, h2, h3⟩ := h
  refine ⟨trigger_crisis_research_points g s ck ic h1,
    trigger_crisis_rate g s ck ic h2, ?_⟩
  intro i
  exact trigger_crisis_instLevel g s ck ic i (h3 i)

lemma research_multiplier_nonneg (n : ℕ) : (0 : ℚ) ≤ 1 + (n : ℚ) * research_bonus := by
  rw [research_bonus]
  positivity

lemma award_nonneg (g2 : GameState) (h1 : 0 ≤ g2.research_points)
    (h2 : 0 ≤ g2.research_points_per_turn) :
    0 ≤ g2.research_points + pyint ((g2.research_points_per_turn : ℚ)
      * (1 + (g2.techLevel .ai : ℚ) * research_bonus)) := by
  have hpy : 0 ≤ pyint ((g2.research_points_per_turn : ℚ)
      * (1 + (g2.techLevel .ai : ℚ) * research_bonus)) :=
    pyint_nonneg _ (mul_nonneg (by exact_mod_cast h2) (research_multiplier_nonneg _))
  omega

lemma stateOK_next_turn (g : GameState) (ck : CrisisKind) (ic : Inst)
    (h : StateOK g) : StateOK (next_turn g ck ic).2 := by
  unfold next_turn
  dsimp only
  split
  · dsimp only
    have hok : StateOK ((calculate_total_complexity {g with turn := g.turn + 1}).2) :=
      ⟨h.1, h.2.1, h.2.2⟩
    exact ⟨award_nonneg _ (stateOK_trigger _ _ ck ic hok).1
        (stateOK_trigger _ _ ck ic hok).2.1,
      (stateOK_trigger _ _ ck ic hok).2.1,
      fun i => (stateOK_trigger _ _ ck ic hok).2.2 i⟩
  · dsimp only
    exact ⟨award_nonneg _ h.1 h.2.1, h.2.1, fun i => h.2.2 i⟩

lemma stateOK_game_status (g : GameState) (h : StateOK g) :
    StateOK (game_status g).2 := by
  rw [game_status_state]
  exact ⟨h.1, h.2.1, h.2.2⟩

lemma reachable_stateOK (g : GameState) (h : Reachable g) : StateOK g := by
  induction h with
  | init => exact stateOK_initial
  | invest g name amount _ ih => exact stateOK_invest g name amount ih
  | upgrade g name _ ih => exact stateOK_upgrade g name ih
  | advance g ck ic _ ih => exact stateOK_next_turn g ck ic ih
  | status g _ ih => exact stateOK_game_status g ih

/-- C7: an institutional-failure crisis reduces the randomly chosen
institution by `max(1, floor(level × adjusted_severity))` and clamps the
result at 1; for every severity and random draw the affected level stays
at least 1, and on every state reachable by the public operations every
institution level is at least 1. -/
theorem C7_institution_level_never_below_one :
    (∀ (g : GameState) (sev : ℚ) (ic : Inst),
      ((trigger_crisis g sev .institutional ic).2).instLevel ic
        = (max 1 ((g.instLevel ic : ℤ)
            - max 1 ⌊(g.instLevel ic : ℚ)
                * (sev * (1 - (g.techLevel .bio : ℚ)
                    * crisis_resistance_magnitude))⌋)).toNat) ∧
    (∀ (g : GameState) (sev : ℚ) (ck : CrisisKind) (ic i : Inst),
      1 ≤ g.instLevel i → 1 ≤ ((trigger_crisis g sev ck ic).2).instLevel i) ∧
    (∀ g, Reachable g → ∀ i, 1 ≤ g.instLevel i) := by
  refine ⟨?_, ?_, ?_⟩
  · intro g sev ic
    rw [← max_one_pyint_eq_max_one_floor]
    show Function.update g.instLevel ic _ ic = _
    rw [Function.update_same]
  · exact fun g sev ck ic i h => trigger_crisis_instLevel g sev ck ic i h
  · exact fun g h i => (reachable_stateOK g h).2.2 i

/-- C7, witness: the invariant and the clamping applied at the fresh
state with a concrete severity. -/
theorem C7_institution_level_witness :
    1 ≤ initialState.instLevel Inst.edu ∧
      1 ≤ ((trigger_crisis initialState 2 CrisisKind.institutional Inst.edu).2).instLevel
          Inst.edu :=
  ⟨C7_institution_level_never_below_one.2.2 initialState Reachable.init Inst.edu,
    C7_institution_level_never_below_one.2.1 initialState 2 CrisisKind.institutional
      Inst.edu Inst.edu
      (C7_institution_level_never_below_one.2.2 initialState Reachable.init Inst.edu)⟩

/-- C10: starting from the initial state, the resource pool is never
negative: every state reachable through `invest_in_technology`,
`invest_in_institution`, `next_turn` (crisis effects included — the
resource-shortage loss is clamped at 0) and `game_status` has
`research_points ≥ 0`. -/
theorem C10_research_points_nonneg (g : GameState) (h : Reachable g) :
    0 ≤ g.research_points :=
  (reachable_stateOK g h).1

/-- C10, witness: the theorem applied to the initial state itself. -/
theorem C10_research_points_nonneg_witness : 0 ≤ initialState.research_points :=
  C10_research_points_nonneg initialState Reachable.init

lemma next_turn_turn (g : GameState) (ck : CrisisKind) (ic : Inst) :
    ((next_turn g ck ic).2).turn = g.turn + 1 := by
  unfold next_turn
  dsimp only
  split
  · dsimp only
    rw [trigger_crisis_turn]
    rfl
  · rfl

lemma runTurns_turn (ds : List (CrisisKind × Inst)) :
    ∀ g : GameState, (runTurns g ds).turn = g.turn + ds.length := by
  induction ds with
  | nil => intro g; rfl
  | cons d ds ih =>
    intro g
    show (runTurns (next_turn g d.1 d.2).2 ds).turn = _
    rw [ih, next_turn_turn]
    rw [List.length_cons]
    omega

lemma game_status_ne_ongoing (g : GameState) (h : 30 ≤ g.turn) :
    (game_status g).1 ≠ "ONGOING" := by
  rw [game_status_fst]
  split_ifs <;> decide

/-- C9: from a freshly constructed state, 30 `next_turn` calls — with any
sequence of random crisis draws and no investments — bring the turn
counter to 30, where `game_status` returns a terminal, non-ONGOING
outcome. -/
theorem C9_thirty_turns_terminal (ds : List (CrisisKind × Inst))
    (h : ds.length = 30) :
    (runTurns initialState ds).turn = 30 ∧
      (game_status (runTurns initialState ds)).1 ≠ "ONGOING" := by
  have ht : (runTurns initialState ds).turn = 30 := by
    rw [runTurns_turn ds initialState, h]
    rfl
  exact ⟨ht, game_status_ne_ongoing _ (by omega)⟩

/-- C9, witness: the theorem applied to a concrete 30-draw sequence. -/
theorem C9_thirty_turns_terminal_witness :
    (List.replicate 30 ((CrisisKind.backlash, Inst.edu))).length = 30 ∧
      ((runTurns initialState
          (List.replicate 30 ((CrisisKind.backlash, Inst.edu)))).turn = 30 ∧
        (game_status (runTurns initialState
            (List.replicate 30 ((CrisisKind.backlash, Inst.edu))))).1 ≠ "ONGOING") :=
  ⟨by simp, C9_thirty_turns_terminal _ (by simp)⟩

end TechProgress
